import Mathlib

/-!
Verification development for the route-variety-helper backend.

The repository is a Flask backend with two near-duplicate variants:
`src/app.py` (primary, with config validation and Strategy B POI search via
Google Places) and `src/backend/app.py` (older, Strategy A POI search via
osmnx/shapely).  This file shallowly embeds the decision logic of both
variants — the session gate (`auth_required`), the auth-status check, the
activity filter, the GPX formatter, the stream endpoint's error mapping, and
both POI resolution paths — and proves the spec's testable properties about
them.

Modelling conventions:
* wall-clock time (`time.time()`) is an explicit `Int` parameter `now`;
* network calls are oracle parameters (`refresh`, `search`, `fetch`): the
  oracle returning `none` models the call raising the corresponding
  exception (`StravaAPIError`, `googlemaps.ApiError`, ...);
* a Python function raising an uncaught exception is modelled by an
  `Option`/`Except` result of `none`/`.error`;
* numeric payload fields that the code merely copies (distances, latitudes,
  ratings) are carried as `Int`; nothing in the claims computes on them.
-/

/-- OAuth token as stored in `session['strava_token']`:
`{access_token, refresh_token, expires_at}` (epoch seconds). -/
structure Token where
  access_token : String
  refresh_token : String
  expires_at : Int
deriving DecidableEq, Repr

/-- Outcome of the session gate: either a short-circuit JSON error response
with a status code, or dispatch to the wrapped handler (which will read the
session token that `tok` records). -/
inductive GateResponse
  | denied (status : Nat) (msg : String)
  | handler (tok : Token)
deriving DecidableEq, Repr

/-- Result of running the `auth_required` decorator body: the response, the
session state it leaves behind, and how many times
`strava_api.refresh_access_token` was invoked. -/
structure GateResult where
  response : GateResponse
  sess : Option Token
  refreshCalls : Nat
deriving DecidableEq, Repr

/-- Decorator body `auth_required` from `src/app.py` (lines 29–50).  `refresh` is the
Token Lifecycle Manager oracle: `refresh rt = some t` models
`refresh_access_token(rt)` returning `t`; `none` models it raising
`StravaAPIError`.  `sess = none` models `'strava_token' not in session`. -/
def auth_required (refresh : String → Option Token) (now : Int)
    (sess : Option Token) : GateResult :=
  match sess with
  | none => ⟨.denied 401 "Authentication required", none, 0⟩
  | some token_info =>
    if token_info.expires_at < now then
      match refresh token_info.refresh_token with
      | some new_token_info => ⟨.handler new_token_info, some new_token_info, 1⟩
      | none =>
        ⟨.denied 401 "Authentication expired, please re-authenticate", none, 1⟩
    else ⟨.handler token_info, some token_info, 0⟩

/-- Endpoint `auth_status` from `src/app.py` (lines 113–118): authenticated iff a
token is in the session and its `expires_at` is strictly greater than
`time.time()`. -/
def auth_status (now : Int) (sess : Option Token) : Bool :=
  match sess with
  | some t => now < t.expires_at
  | none => false

/-- C1: for a request carrying a token with `expires_at` in the past the
gate calls refresh exactly once; with `expires_at` in the future it never
calls refresh and dispatches the stored token to the handler. -/
theorem auth_required_refresh_once (refresh : String → Option Token)
    (now : Int) (t : Token) :
    (t.expires_at < now →
      (auth_required refresh now (some t)).refreshCalls = 1) ∧
    (now < t.expires_at →
      (auth_required refresh now (some t)).refreshCalls = 0 ∧
      (auth_required refresh now (some t)).response = .handler t) := by
  constructor
  · intro h
    simp [auth_required, if_pos h]
    cases refresh t.refresh_token <;> simp
  · intro h
    have h2 : ¬ t.expires_at < now := by omega
    simp [auth_required, if_neg h2]

/-- Witness for C1 at a concrete expired and a concrete fresh token. -/
theorem auth_required_refresh_once_witness :
    ((10 : Int) < 20 ∧
      (auth_required (fun _ => none) 20
        (some ⟨"a", "r", 10⟩)).refreshCalls = 1) ∧
    ((20 : Int) < 30 ∧
      (auth_required (fun _ => none) 20
        (some ⟨"a", "r", 30⟩)).refreshCalls = 0) :=
  ⟨⟨by decide,
    (auth_required_refresh_once (fun _ => none) 20 ⟨"a", "r", 10⟩).1
      (by decide)⟩,
   ⟨by decide,
    ((auth_required_refresh_once (fun _ => none) 20 ⟨"a", "r", 30⟩).2
      (by decide)).1⟩⟩

/-- C2: when the refresh call fails, the gate clears the session, responds
401 with the re-authenticate message (distinct from the plain
unauthenticated message), does not dispatch the handler, and any later
`auth/status` on the resulting session reports not authenticated. -/
theorem refresh_failure_clears_session (refresh : String → Option Token)
    (now later : Int) (t : Token)
    (hexp : t.expires_at < now)
    (hfail : refresh t.refresh_token = none) :
    (auth_required refresh now (some t)).sess = none ∧
    (auth_required refresh now (some t)).response =
      .denied 401 "Authentication expired, please re-authenticate" ∧
    (∀ u, (auth_required refresh now (some t)).response ≠ .handler u) ∧
    "Authentication expired, please re-authenticate" ≠
      "Authentication required" ∧
    auth_status later (auth_required refresh now (some t)).sess = false := by
  simp [auth_required, if_pos hexp, hfail, auth_status]

/-- Witness for C2 at a concrete expired token whose refresh fails. -/
theorem refresh_failure_clears_session_witness :
    (auth_required (fun _ => none) 20 (some ⟨"a", "r", 10⟩)).sess = none ∧
    auth_status 99
      (auth_required (fun _ => none) 20 (some ⟨"a", "r", 10⟩)).sess = false := by
  have h := refresh_failure_clears_session (fun _ => none) 20 99
    ⟨"a", "r", 10⟩ (by decide) rfl
  exact ⟨h.1, h.2.2.2.2⟩

/-- C3: the token the gate hands to the wrapped handler (the one whose
`access_token` is passed to the Activity Data Client) is never the stored
token once that token is past expiry: an expired token is either replaced by
the refresh result before dispatch, or the request is rejected with 401. -/
theorem expired_token_never_used (refresh : String → Option Token)
    (now : Int) (t : Token) (hexp : t.expires_at < now) :
    (∀ u, (auth_required refresh now (some t)).response = .handler u →
      refresh t.refresh_token = some u) ∧
    (refresh t.refresh_token = none →
      (auth_required refresh now (some t)).response =
        .denied 401 "Authentication expired, please re-authenticate") := by
  constructor
  · intro u hu
    simp only [auth_required, if_pos hexp] at hu
    cases hr : refresh t.refresh_token with
    | none => simp [hr] at hu
    | some v => simp [hr] at hu; simp [hu]
  · intro hfail
    simp [auth_required, if_pos hexp, hfail]

/-- Witness for C3: an expired token with a succeeding refresh dispatches
exactly the refreshed token. -/
theorem expired_token_never_used_witness :
    (10 : Int) < 20 ∧
    ((auth_required (fun _ => some ⟨"b", "r2", 99⟩) 20
        (some ⟨"a", "r", 10⟩)).response = .handler ⟨"b", "r2", 99⟩ →
      (fun (_ : String) => some (⟨"b", "r2", 99⟩ : Token)) "r" =
        some ⟨"b", "r2", 99⟩) :=
  ⟨by decide,
   (expired_token_never_used (fun _ => some ⟨"b", "r2", 99⟩) 20
      ⟨"a", "r", 10⟩ (by decide)).1 ⟨"b", "r2", 99⟩⟩

/-! ## Activity list filtering (`GET /api/activities`) -/

/-- Raw activity record as returned by the Strava API; the field
`map_summary_polyline` is the value of `act.get("map", {}).get("summary_polyline")`:
`none` when the `map` object or the `summary_polyline` key is absent. -/
structure RawActivity where
  id : Int
  name : String
  distance : Int
  activityType : String
  start_date_local : String
  map_summary_polyline : Option String
deriving DecidableEq, Repr

/-- Projected record the handler returns for one kept activity.  The
primary variant additionally rounds the float `distance` to two decimals;
that float-level rounding does not affect which records are kept and is
not modelled. -/
structure ActivityOut where
  id : Int
  name : String
  distance : Int
  activityType : String
  start_date : String
deriving DecidableEq, Repr

/-- Python truthiness of the polyline value used in the filter condition
`if act.get("map", {}).get("summary_polyline")`: `None` and the empty
string are falsy, every non-empty string is truthy. -/
def pyTruthy : Option String → Bool
  | none => false
  | some s => !s.isEmpty

/-- Field projection of the comprehension body in `get_activities`
(`src/app.py` lines 136–142). -/
def projectActivity (a : RawActivity) : ActivityOut :=
  ⟨a.id, a.name, a.distance, a.activityType, a.start_date_local⟩

/-- The list comprehension of `get_activities` (`src/app.py` lines
135–144): keep an activity iff its polyline value is truthy, projecting
the listed fields. -/
def get_activities_filtered (activities : List RawActivity) : List ActivityOut :=
  (activities.filter fun act => pyTruthy act.map_summary_polyline).map
    projectActivity

/-- The polyline truthiness test accepts exactly the non-empty strings. -/
theorem pyTruthy_some_iff (s : String) : pyTruthy (some s) = true ↔ s ≠ "" := by
  simp only [pyTruthy, Bool.not_eq_true', Bool.eq_false_iff, Ne,
    String.isEmpty_iff]

/-- C4 counterexample: a record whose `summary_polyline` key is present
but equal to `""` is excluded from the filtered result (the claim says it
is included). -/
theorem empty_polyline_excluded :
    get_activities_filtered
      [⟨1, "Run", 1000, "Run", "2024-01-01", some ""⟩] = [] := by
  decide

/-- C4 amended: a raw record contributes to the filtered result iff its
polyline value is present AND non-empty; both an absent key and an empty
string lead to exclusion. -/
theorem polyline_filter_characterization (activities : List RawActivity)
    (a : RawActivity) (ha : a ∈ activities) :
    ((∃ s, a.map_summary_polyline = some s ∧ s ≠ "") →
      projectActivity a ∈ get_activities_filtered activities) ∧
    (∀ b, b ∈ get_activities_filtered activities →
      ∃ c, c ∈ activities ∧ b = projectActivity c ∧
        ∃ s, c.map_summary_polyline = some s ∧ s ≠ "") := by
  constructor
  · rintro ⟨s, hs, hne⟩
    apply List.mem_map_of_mem projectActivity
    rw [List.mem_filter]
    refine ⟨ha, ?_⟩
    rw [hs]
    exact (pyTruthy_some_iff s).mpr hne
  · intro b hb
    rw [get_activities_filtered, List.mem_map] at hb
    obtain ⟨c, hc, hcb⟩ := hb
    rw [List.mem_filter] at hc
    refine ⟨c, hc.1, hcb.symm, ?_⟩
    cases hpoly : c.map_summary_polyline with
    | none => rw [hpoly] at hc; simp [pyTruthy] at hc
    | some s =>
      refine ⟨s, rfl, ?_⟩
      have := hc.2
      rw [hpoly] at this
      exact (pyTruthy_some_iff s).mp this

/-- Witness for the amended C4 at a three-record boundary list: absent
key excluded, empty string excluded, non-empty polyline included. -/
theorem polyline_filter_characterization_witness :
    projectActivity ⟨3, "Ride", 5, "Ride", "d", some "abc"⟩ ∈
      get_activities_filtered
        [⟨1, "A", 1, "Run", "d", none⟩,
         ⟨2, "B", 2, "Run", "d", some ""⟩,
         ⟨3, "Ride", 5, "Ride", "d", some "abc"⟩] :=
  (polyline_filter_characterization
      [⟨1, "A", 1, "Run", "d", none⟩,
       ⟨2, "B", 2, "Run", "d", some ""⟩,
       ⟨3, "Ride", 5, "Ride", "d", some "abc"⟩]
      ⟨3, "Ride", 5, "Ride", "d", some "abc"⟩
      (by decide)).1 ⟨"abc", rfl, by decide⟩

/-! ## Coordinate stream fetch and its HTTP mapping -/

/-- The `latlng` object of the Strava streams response; `data` is `none`
when the `data` key is absent. -/
structure LatlngStream where
  streamData : Option (List (Int × Int))
deriving DecidableEq, Repr

/-- Parsed JSON body of a successful `GET /activities/{id}/streams`
response; `latlng = none` when the provider returned no `latlng` key
(activity without GPS data). -/
structure StreamsResponse where
  latlng : Option LatlngStream
deriving DecidableEq, Repr

/-- Client method `StravaAPI.get_activity_stream` (`src/strava_client.py` lines 94–111)
as a function of the upstream HTTP outcome: a `requests` failure becomes
`StravaAPIError` (here `.error ()`), a successful response is reduced by
`data.get('latlng', {}).get('data', [])`. -/
def get_activity_stream (resp : Except Unit StreamsResponse) :
    Except Unit (List (Int × Int)) :=
  match resp with
  | .error e => .error e
  | .ok data =>
    .ok (match data.latlng with
      | none => []
      | some s => s.streamData.getD [])

/-- JSON body of the stream endpoint's response. -/
inductive StreamBody
  | stream (pts : List (Int × Int))
  | jsonError (msg : String)
deriving DecidableEq, Repr

/-- Handler `get_activity_stream_data` (`src/app.py` lines 70–84) as a
function of the client-call outcome: `StravaAPIError` → 500, empty stream
(falsy list) → 404, otherwise 200 with the stream. -/
def get_activity_stream_data (fetched : Except Unit (List (Int × Int))) :
    Nat × StreamBody :=
  match fetched with
  | .error _ => (500, .jsonError "Failed to fetch activity data")
  | .ok [] => (404, .jsonError "No GPS data found for this activity")
  | .ok pts => (200, .stream pts)

/-- C8: an activity with no GPS data yields a successful empty sequence
from `get_activity_stream` (never an error), the HTTP layer maps the empty
sequence to 404 and an upstream failure to 500, and the two outcomes are
distinguishable: status 404 happens exactly on the empty successful
stream, status 500 exactly on `StravaAPIError`. -/
theorem stream_empty_vs_error (data : StreamsResponse)
    (hng : data.latlng = none ∨ ∃ s, data.latlng = some s ∧
      (s.streamData = none ∨ s.streamData = some [])) :
    get_activity_stream (.ok data) = .ok [] ∧
    (∀ r : Except Unit (List (Int × Int)),
      ((get_activity_stream_data r).1 = 404 ↔ r = .ok []) ∧
      ((get_activity_stream_data r).1 = 500 ↔ r = .error ())) := by
  constructor
  · rcases hng with h | ⟨s, hs, hd | hd⟩
    · simp [get_activity_stream, h]
    · simp [get_activity_stream, hs, hd]
    · simp [get_activity_stream, hs, hd, Option.getD]
  · intro r
    rcases r with e | pts
    · cases e; constructor <;> constructor <;>
        simp [get_activity_stream_data]
    · cases pts <;> constructor <;> constructor <;>
        simp_all [get_activity_stream_data]

/-- Witness for C8 at a concrete GPS-less response (no `latlng` key). -/
theorem stream_empty_vs_error_witness :
    get_activity_stream (.ok ⟨none⟩) = .ok [] ∧
    (get_activity_stream_data (.ok [])).1 = 404 ∧
    (get_activity_stream_data (.error ())).1 = 500 := by
  have h := stream_empty_vs_error ⟨none⟩ (Or.inl rfl)
  exact ⟨h.1, (h.2 (.ok [])).1.mpr rfl, (h.2 (.error ())).2.mpr rfl⟩

/-! ## GPX formatting -/

/-- Python `str()` of a float whose shortest decimal representation has
exactly one fractional digit (e.g. `45.0 → "45.0"`, `-122.1 → "-122.1"`);
the coordinate is carried as its value in tenths of a degree. -/
def pyFloatStr (tenths : Int) : String :=
  (if tenths < 0 then "-" else "") ++
    toString (tenths.natAbs / 10) ++ "." ++ toString (tenths.natAbs % 10)

/-- One iteration of the loop in `create_gpx_string`: the line appended
for a single `[lat, lng]` coordinate. -/
def trkpt_line (c : Int × Int) : String :=
  "  <trkpt lat=\"" ++ pyFloatStr c.1 ++ "\" lon=\"" ++ pyFloatStr c.2 ++
    "\"></trkpt>\n"

/-- The accumulation loop of `create_gpx_string` (`src/app.py` lines
55–57): `gpx_points` starts empty and each coordinate appends its
`trkpt` line. -/
def gpx_points : List (Int × Int) → String
  | [] => ""
  | c :: cs => trkpt_line c ++ gpx_points cs

/-- Formatter `create_gpx_string` (`src/app.py` lines 53–68, identical in
`src/backend/app.py` lines 43–58): the GPX 1.1 document template with the
activity name and the accumulated `trkpt` lines interpolated. -/
def create_gpx_string (activity_name : String) (coords : List (Int × Int)) :
    String :=
  "<?xml version=\"1.0\" encoding=\"UTF-8\"?>\n" ++
  "<gpx version=\"1.1\" creator=\"Strava Route Discovery App\" " ++
    "xmlns=\"http://www.topografix.com/GPX/1/1\">\n" ++
  "  <trk>\n" ++
  "    <name>" ++ activity_name ++ "</name>\n" ++
  "    <trkseg>\n" ++
  gpx_points coords ++ "\n" ++
  "    </trkseg>\n" ++
  "  </trk>\n" ++
  "</gpx>\n"

set_option maxRecDepth 4000 in
/-- C9: on `("Activity 123", [[45.0, -122.0], [45.1, -122.1]])` the
formatter emits exactly the GPX 1.1 document with one track/track-segment
and exactly two `trkpt` elements carrying `lat="45.0" lon="-122.0"` and
`lat="45.1" lon="-122.1"` in input order; in general the points section
is the concatenation of one `trkpt` line per input coordinate, in input
order. -/
theorem create_gpx_string_spec :
    create_gpx_string "Activity 123" [(450, -1220), (451, -1221)] =
      "<?xml version=\"1.0\" encoding=\"UTF-8\"?>\n" ++
      "<gpx version=\"1.1\" creator=\"Strava Route Discovery App\" " ++
        "xmlns=\"http://www.topografix.com/GPX/1/1\">\n" ++
      "  <trk>\n" ++
      "    <name>Activity 123</name>\n" ++
      "    <trkseg>\n" ++
      "  <trkpt lat=\"45.0\" lon=\"-122.0\"></trkpt>\n" ++
      "  <trkpt lat=\"45.1\" lon=\"-122.1\"></trkpt>\n" ++
      "\n" ++
      "    </trkseg>\n" ++
      "  </trk>\n" ++
      "</gpx>\n" ∧
    (∀ coords : List (Int × Int),
      gpx_points coords = (coords.map trkpt_line).foldr (· ++ ·) "") := by
  constructor
  · rfl
  · intro coords
    induction coords with
    | nil => rfl
    | cons c cs ih => simp [gpx_points, ih]

/-! ## Strategy B POI resolution (`src/poi_service.py`) -/

/-- Constant `POI_TYPES` from `src/poi_service.py` lines 12–15. -/
def POI_TYPES : List String :=
  ["cafe", "restaurant", "bar", "tourist_attraction",
   "museum", "park", "art_gallery", "viewpoint"]

/-- One entry of the `results` array returned by `places_nearby`; latitude
and longitude are carried opaquely, optional JSON fields as `Option`. -/
structure PlaceResult where
  place_id : String
  name : Option String
  types : List String
  lat : Int
  lng : Int
  rating : Option Int
  price_level : Option Int
deriving DecidableEq, Repr

/-- The POI dictionary built for one place (`src/poi_service.py` lines
67–76). -/
structure Poi where
  name : String
  category : String
  coords : List Int
  rating : Option Int
  price_level : Option Int
deriving DecidableEq, Repr

/-- Python `str.title()` on the character list: the first character of
each alphabetic run is uppercased, the rest lowercased. -/
def pyTitleAux : Bool → List Char → List Char
  | _, [] => []
  | atStart, c :: cs =>
    if c.isAlpha then
      (if atStart then c.toUpper else c.toLower) :: pyTitleAux false cs
    else c :: pyTitleAux true cs

/-- Python `s.replace('_', ' ').title()` as used for the category label. -/
def pyUnderscoreTitle (s : String) : String :=
  ⟨pyTitleAux true (s.data.map fun c => if c = '_' then ' ' else c)⟩

/-- The record stored in `found_pois[place_id]` (`src/poi_service.py`
lines 64–76): the first known type (else `point_of_interest`) rendered
with spaces and title-case, name defaulting to `"Unknown"`, coordinates
as `[lat, lng]`, rating and price level copied. -/
def buildPoi (poi : PlaceResult) : Poi :=
  let poi_type :=
    (poi.types.find? fun t => POI_TYPES.contains t).getD "point_of_interest"
  { name := poi.name.getD "Unknown"
    category := pyUnderscoreTitle poi_type
    coords := [poi.lat, poi.lng]
    rating := poi.rating
    price_level := poi.price_level }

/-- Python slicing `l[::step]` for `step ≥ 1`: the elements at indices
0, step, 2·step, …. -/
def sliceStep {α : Type} (l : List α) (step : Nat) : List α :=
  (l.enum.filter fun p => p.1 % step = 0).map Prod.snd

/-- Sampler `_sample_route_points` (`src/poi_service.py` lines 17–24).  Input is
`[lng, lat]` pairs, output `(lat, lng)` sample points.  `none` models the
Python `ZeroDivisionError` raised by
`len(route_coords) // (len(route_coords) * 100 // sample_distance)` when
the inner floor division is zero (also when `sample_distance` itself is
zero, where Python raises in the inner division). -/
def _sample_route_points (route_coords : List (Int × Int))
    (sample_distance : Nat) : Option (List (Int × Int)) :=
  if route_coords.length ≤ 2 then
    some (route_coords.map fun p => (p.2, p.1))
  else
    let d := route_coords.length * 100 / sample_distance
    if d = 0 then none
    else
      let step := max 1 (route_coords.length / d)
      some ((sliceStep route_coords step).map fun p => (p.2, p.1))

/-- The inner result loop (`src/poi_service.py` lines 61–76): each result
whose `place_id` is not yet a key of `found_pois` is appended (Python
dicts preserve insertion order); results whose key is already present are
skipped. -/
def insert_results : List PlaceResult → List (String × Poi) →
    List (String × Poi)
  | [], found => found
  | poi :: rest, found =>
    if (List.lookup poi.place_id found).isSome then insert_results rest found
    else insert_results rest (found ++ [(poi.place_id, buildPoi poi)])

/-- The sample-point loop (`src/poi_service.py` lines 50–83): one
`places_nearby` call per sample point; a failing call (`search pt = none`,
modelling `googlemaps.ApiError` or any other exception) is logged and
skipped via `continue`, a successful one merges its results into
`found_pois`. -/
def pois_loop (search : Int × Int → Option (List PlaceResult)) :
    List (Int × Int) → List (String × Poi) → List (String × Poi)
  | [], found => found
  | pt :: pts, found =>
    match search pt with
    | none => pois_loop search pts found
    | some results => pois_loop search pts (insert_results results found)

/-- All results of the successful `places_nearby` calls, concatenated in
sample-point iteration order (the order in which the loop sees them). -/
def flat_results (search : Int × Int → Option (List PlaceResult)) :
    List (Int × Int) → List PlaceResult
  | [] => []
  | pt :: pts =>
    (match search pt with | none => [] | some results => results) ++
      flat_results search pts

/-- Outcome of one resolver invocation: `result = none` models an
uncaught exception, and `networkCalls` counts provider requests issued. -/
structure ResolverRun where
  result : Option (List Poi)
  networkCalls : Nat
deriving DecidableEq, Repr

/-- Resolver `get_pois_for_route` (`src/poi_service.py` lines 26–86): empty route
short-circuits to `[]`; otherwise the route is sampled (where the sampler
may raise, uncaught) and the loop's dictionary values are returned.  The
`gmaps` client is initialised, since `Config.validate()` made a missing
Google Maps key a fatal startup error. -/
def get_pois_for_route (search : Int × Int → Option (List PlaceResult))
    (sample_distance : Nat) (route_coords : List (Int × Int)) : ResolverRun :=
  if route_coords.isEmpty then ⟨some [], 0⟩
  else
    match _sample_route_points route_coords sample_distance with
    | none => ⟨none, 0⟩
    | some sample_points =>
      ⟨some ((pois_loop search sample_points []).map Prod.snd),
        sample_points.length⟩

/-! ## Strategy A POI resolution (`src/backend/poi_service.py`) -/

/-- Strategy A `get_pois_for_route` (`src/backend/poi_service.py`):
empty route short-circuits to `[]`; `shapely.LineString` raises on fewer
than 2 points, before the single `ox.features_from_geometry` network
fetch; the post-fetch geometry (UTM projection, 100 m planar distance
filter, labelling) runs in the external osmnx/shapely libraries on floats
and is modelled by the oracle `proc` (`none` = any error in that part,
which aborts the whole call). -/
def get_pois_for_route_A {α : Type}
    (fetch : List (Int × Int) → Option (List α))
    (proc : List α → Option (List Poi))
    (route_coords : List (Int × Int)) : ResolverRun :=
  if route_coords.isEmpty then ⟨some [], 0⟩
  else if route_coords.length < 2 then ⟨none, 0⟩
  else
    match fetch route_coords with
    | none => ⟨none, 1⟩
    | some feats =>
      match proc feats with
      | none => ⟨none, 1⟩
      | some pois => ⟨some pois, 1⟩

/-! ## The `POST /api/pois` handlers -/

/-- Request body of `POST /api/pois` as the handlers distinguish it:
no/falsy JSON, JSON without a `route` key, a `route` value that is not a
list, or a list of coordinate rows (each row an arbitrary-length list,
modelling possibly malformed pairs). -/
inductive PoisBody
  | missing
  | noRoute
  | nonList
  | route (r : List (List Int))
deriving DecidableEq, Repr

/-- The conversion `[[coord[1], coord[0]] for coord in route]` shared by
both handlers: `none` models the `IndexError` raised when some row has
fewer than two entries. -/
def convert_route : List (List Int) → Option (List (Int × Int))
  | [] => some []
  | coord :: rest =>
    match coord with
    | lat :: lng :: _ =>
      match convert_route rest with
      | none => none
      | some cs => some ((lng, lat) :: cs)
    | _ => none

/-- Handler `get_nearby_pois` from `src/app.py` (lines 169–191), returning
`(status, network calls)`: explicit 400 for missing data, missing key,
non-list route, and short route; the conversion and the Strategy B
resolver run inside `try`, with `IndexError`/`TypeError` mapped to 400
and any other exception (e.g. the sampler's `ZeroDivisionError`) to
500. -/
def get_nearby_pois_v1 (search : Int × Int → Option (List PlaceResult))
    (sample_distance : Nat) (body : PoisBody) : Nat × Nat :=
  match body with
  | .missing => (400, 0)
  | .noRoute => (400, 0)
  | .nonList => (400, 0)
  | .route route =>
    if route.length < 2 then (400, 0)
    else
      match convert_route route with
      | none => (400, 0)
      | some route_coords =>
        let run := get_pois_for_route search sample_distance route_coords
        match run.result with
        | none => (500, run.networkCalls)
        | some _ => (200, run.networkCalls)

/-- Handler `get_nearby_pois` from `src/backend/app.py` (lines 146–161),
returning `(status, network calls)`: only missing data/key give 400; the
conversion runs OUTSIDE any `try`, so a non-list route or malformed row
raises an unhandled `TypeError`/`IndexError` (Flask's generic 500); the
Strategy A resolver runs inside `try` with every exception mapped to
500.  There is no route-length check. -/
def get_nearby_pois_v2 {α : Type}
    (fetch : List (Int × Int) → Option (List α))
    (proc : List α → Option (List Poi))
    (body : PoisBody) : Nat × Nat :=
  match body with
  | .missing => (400, 0)
  | .noRoute => (400, 0)
  | .nonList => (500, 0)
  | .route route =>
    match convert_route route with
    | none => (500, 0)
    | some route_coords =>
      let run := get_pois_for_route_A fetch proc route_coords
      match run.result with
      | none => (500, run.networkCalls)
      | some _ => (200, run.networkCalls)

/-! ## Deduplication lemmas for the Strategy B accumulator -/

/-- A key is absent from an association list exactly when `lookup`
returns `none`. -/
theorem lookup_eq_none_iff {β : Type} (l : List (String × β)) (a : String) :
    List.lookup a l = none ↔ a ∉ l.map Prod.fst := by
  induction l with
  | nil => simp
  | cons kv t ih =>
    obtain ⟨k, v⟩ := kv
    rw [List.lookup_cons]
    cases hbeq : a == k with
    | true =>
      have heq : a = k := by simpa using hbeq
      simp [heq]
    | false =>
      have hne : a ≠ k := by simpa using hbeq
      simp [ih, hne]

/-- Merging one `places_nearby` result list into the accumulator: an
existing binding for a place id is kept unchanged, and an absent one is
filled by the FIRST result in the list carrying that id. -/
theorem lookup_insert_results (results : List PlaceResult)
    (found : List (String × Poi)) (pid : String) :
    List.lookup pid (insert_results results found) =
      (List.lookup pid found).or
        ((results.find? fun r => r.place_id == pid).map buildPoi) := by
  induction results generalizing found with
  | nil => simp [insert_results]
  | cons poi rest ih =>
    rw [insert_results]
    by_cases h : (List.lookup poi.place_id found).isSome
    · rw [if_pos h, ih]
      cases hbeq : poi.place_id == pid with
      | true =>
        have heq : poi.place_id = pid := by simpa using hbeq
        obtain ⟨v, hv⟩ := Option.isSome_iff_exists.mp h
        rw [heq] at hv
        simp [List.find?_cons, hbeq, hv]
      | false =>
        simp [List.find?_cons, hbeq]
    · rw [if_neg h, ih]
      have hnone : List.lookup poi.place_id found = none :=
        Option.not_isSome_iff_eq_none.mp h
      rw [List.lookup_append]
      cases hbeq : poi.place_id == pid with
      | true =>
        have heq : poi.place_id = pid := by simpa using hbeq
        subst heq
        simp [List.find?_cons, hnone, List.lookup_cons]
      | false =>
        have hne : pid ≠ poi.place_id := by
          intro hc; rw [hc] at hbeq; simp at hbeq
        have hbeq2 : (pid == poi.place_id) = false := by
          simpa using hne
        simp [List.find?_cons, hbeq, List.lookup_cons, hbeq2]

/-- Looking up a place id after the full sample-point loop: an initial
binding is kept, otherwise the first matching result across the
successful calls, in iteration order, provides it. -/
theorem lookup_pois_loop (search : Int × Int → Option (List PlaceResult))
    (pts : List (Int × Int)) (found : List (String × Poi)) (pid : String) :
    List.lookup pid (pois_loop search pts found) =
      (List.lookup pid found).or
        (((flat_results search pts).find? fun r => r.place_id == pid).map
          buildPoi) := by
  induction pts generalizing found with
  | nil => simp [pois_loop, flat_results]
  | cons pt pts ih =>
    rw [pois_loop, flat_results]
    cases hse : search pt with
    | none => simp only [hse]; rw [ih]; simp
    | some rs =>
      simp only [hse]
      rw [ih, lookup_insert_results, List.find?_append, Option.or_assoc]
      cases List.lookup pid found <;>
        cases List.find? (fun r => r.place_id == pid) rs <;>
          cases List.find? (fun r => r.place_id == pid)
            (flat_results search pts) <;> simp

/-- Merging a result list preserves distinctness of the stored keys. -/
theorem insert_results_keys_nodup (results : List PlaceResult)
    (found : List (String × Poi)) (h : (found.map Prod.fst).Nodup) :
    ((insert_results results found).map Prod.fst).Nodup := by
  induction results generalizing found with
  | nil => simpa [insert_results]
  | cons poi rest ih =>
    rw [insert_results]
    by_cases hl : (List.lookup poi.place_id found).isSome
    · rw [if_pos hl]; exact ih found h
    · rw [if_neg hl]
      apply ih
      have hnone : List.lookup poi.place_id found = none :=
        Option.not_isSome_iff_eq_none.mp hl
      have hnotin : poi.place_id ∉ found.map Prod.fst :=
        (lookup_eq_none_iff found _).mp hnone
      simp [List.nodup_append, h, hnotin]

/-- The sample-point loop preserves distinctness of the stored keys. -/
theorem pois_loop_keys_nodup (search : Int × Int → Option (List PlaceResult))
    (pts : List (Int × Int)) (found : List (String × Poi))
    (h : (found.map Prod.fst).Nodup) :
    ((pois_loop search pts found).map Prod.fst).Nodup := by
  induction pts generalizing found with
  | nil => simpa [pois_loop]
  | cons pt pts ih =>
    rw [pois_loop]
    cases hse : search pt with
    | none => exact ih found h
    | some rs => exact ih _ (insert_results_keys_nodup rs found h)

/-- C5 counterexample: the backend variant does NOT reject a single-point
route with a validation error — it answers 500 (the resolver's geometry
failure), though still without a network call. -/
theorem backend_short_route_not_400 :
    (get_nearby_pois_v2 (fun _ => some ([] : List Unit)) (fun _ => some [])
      (.route [[1, 2]])).1 = 500 ∧
    (get_nearby_pois_v2 (fun _ => some ([] : List Unit)) (fun _ => some [])
      (.route [[1, 2]])).2 = 0 ∧
    (500 : Nat) ≠ 400 := by
  decide

/-- C5 amended: the primary variant rejects any route shorter than 2
points with 400 and zero network calls; the backend variant has no length
validation — an empty route yields 200 with an empty result set and a
single-point route yields 500, in both cases without a network call. -/
theorem short_route_validation {α : Type}
    (search : Int × Int → Option (List PlaceResult)) (sample_distance : Nat)
    (fetch : List (Int × Int) → Option (List α))
    (proc : List α → Option (List Poi))
    (route : List (List Int)) (h : route.length < 2) :
    get_nearby_pois_v1 search sample_distance (.route route) = (400, 0) ∧
    (route = [] → get_nearby_pois_v2 fetch proc (.route route) = (200, 0)) ∧
    (route.length = 1 →
      get_nearby_pois_v2 fetch proc (.route route) = (500, 0)) := by
  refine ⟨?_, ?_, ?_⟩
  · simp [get_nearby_pois_v1, if_pos h]
  · rintro rfl
    simp [get_nearby_pois_v2, convert_route, get_pois_for_route_A]
  · intro h1
    obtain ⟨c, rfl⟩ : ∃ c, route = [c] := by
      cases route with
      | nil => simp at h1
      | cons a t =>
        cases t with
        | nil => exact ⟨a, rfl⟩
        | cons b t2 => simp at h1
    match c with
    | [] => simp [get_nearby_pois_v2, convert_route]
    | [x] => simp [get_nearby_pois_v2, convert_route]
    | x :: y :: rest =>
      simp [get_nearby_pois_v2, convert_route, get_pois_for_route_A]

/-- Witness for the amended C5 at the single-point route `[[1, 2]]`. -/
theorem short_route_validation_witness :
    get_nearby_pois_v1 (fun _ => some []) 500 (.route [[1, 2]]) = (400, 0) ∧
    get_nearby_pois_v2 (fun _ => some ([] : List Unit)) (fun _ => some [])
      (.route [[1, 2]]) = (500, 0) := by
  have h := short_route_validation (fun _ => some []) 500
    (fun _ => some ([] : List Unit)) (fun _ => some []) [[1, 2]] (by decide)
  exact ⟨h.1, h.2.2 (by decide)⟩

/-- C6: evaluating the code at the failing input — a syntactically valid
3-point route under the default sampling distance of 500 makes
`_sample_route_points` divide by zero
(`len * 100 // 500 = 0`), the resolver aborts without returning a result
set instead of completing, and the endpoint answers 500. -/
theorem sampler_zero_division_three_points :
    _sample_route_points [(0, 0), (1, 0), (2, 0)] 500 = none ∧
    get_pois_for_route (fun _ => some []) 500 [(0, 0), (1, 0), (2, 0)] =
      ⟨none, 0⟩ ∧
    get_nearby_pois_v1 (fun _ => some []) 500
      (.route [[0, 0], [0, 1], [0, 2]]) = (500, 0) := by
  refine ⟨by decide, by decide, by decide⟩

/-- C7 counterexample: for the valid 3-point route below (length ≥ 2) the
Strategy B resolver returns NO result set at all (the sampler's
ZeroDivisionError propagates), so the claim's universal statement over
routes of length ≥ 2 fails. -/
theorem resolver_no_result_three_points :
    (get_pois_for_route (fun _ => some []) 500
      [(5, 0), (6, 0), (7, 0)]).result = none := by
  decide

/-- C7 amended: whenever Strategy B resolution completes (its sampler
returns sample points `pts`), the output is the value list of an
association list with pairwise-distinct place ids, and every place id
discovered by the successful proximity calls — in particular one returned
by several overlapping sample circles — yields exactly one POI record. -/
theorem dedup_by_place_id (search : Int × Int → Option (List PlaceResult))
    (sample_distance : Nat) (route_coords pts : List (Int × Int))
    (hne : route_coords ≠ [])
    (hs : _sample_route_points route_coords sample_distance = some pts) :
    ∃ kv : List (String × Poi),
      (get_pois_for_route search sample_distance route_coords).result =
        some (kv.map Prod.snd) ∧
      (kv.map Prod.fst).Nodup ∧
      ∀ pid, pid ∈ (flat_results search pts).map PlaceResult.place_id →
        (kv.filter fun e => e.1 == pid).length = 1 := by
  refine ⟨pois_loop search pts [], ?_, ?_, ?_⟩
  · have hne2 : route_coords.isEmpty = false := by
      cases route_coords with
      | nil => exact absurd rfl hne
      | cons a t => rfl
    simp [get_pois_for_route, hne2, hs]
  · exact pois_loop_keys_nodup search pts [] (by simp)
  · intro pid hmem
    obtain ⟨r, hr, hpid⟩ := List.mem_map.mp hmem
    have hfind :
        ((flat_results search pts).find? fun r => r.place_id == pid).isSome := by
      rw [List.find?_isSome]
      exact ⟨r, hr, by simp [hpid]⟩
    have hlk : (List.lookup pid (pois_loop search pts [])).isSome := by
      rw [lookup_pois_loop]
      obtain ⟨x, hx⟩ := Option.isSome_iff_exists.mp hfind
      simp [hx]
    have hmemk : pid ∈ (pois_loop search pts []).map Prod.fst := by
      by_contra hno
      rw [← lookup_eq_none_iff] at hno
      rw [hno] at hlk
      simp at hlk
    have hnd : ((pois_loop search pts []).map Prod.fst).Nodup :=
      pois_loop_keys_nodup search pts [] (by simp)
    have hcount :
        (List.filter (fun e => e.1 == pid) (pois_loop search pts [])).length =
          List.count pid ((pois_loop search pts []).map Prod.fst) := by
      rw [← List.countP_eq_length_filter, List.count, List.countP_map]
      rfl
    rw [hcount]
    have hle := List.nodup_iff_count_le_one.mp hnd pid
    have hpos := List.count_pos_iff.mpr hmemk
    omega

/-- Witness for the amended C7: a 2-point route whose two sample circles
both return the same place id yields a completed resolution in which
that id has exactly one record. -/
theorem dedup_by_place_id_witness :
    ∃ kv : List (String × Poi),
      (get_pois_for_route
          (fun _ => some [⟨"p1", some "Cafe", ["cafe"], 7, 8, none, none⟩])
          500 [(0, 0), (1, 0)]).result = some (kv.map Prod.snd) ∧
      (kv.map Prod.fst).Nodup ∧
      ∀ pid, pid ∈ (flat_results
          (fun _ => some [⟨"p1", some "Cafe", ["cafe"], 7, 8, none, none⟩])
          [(0, 0), (0, 1)]).map PlaceResult.place_id →
        (kv.filter fun e => e.1 == pid).length = 1 :=
  dedup_by_place_id
    (fun _ => some [⟨"p1", some "Cafe", ["cafe"], 7, 8, none, none⟩])
    500 [(0, 0), (1, 0)] [(0, 0), (0, 1)] (by decide) (by decide)

/-- C10: first discovery wins — the record the loop stores for a place id
is the one built (`buildPoi`) from the FIRST result carrying that id
among all successful proximity calls, in sample-point iteration order;
later results with the same id never replace it. -/
theorem first_discovery_wins
    (search : Int × Int → Option (List PlaceResult))
    (pts : List (Int × Int)) (pid : String) :
    List.lookup pid (pois_loop search pts []) =
      ((flat_results search pts).find? fun r => r.place_id == pid).map
        buildPoi := by
  rw [lookup_pois_loop]
  simp
